import Mathlib

set_option autoImplicit false

/-!
Shallow embedding of the console compositing / backend abstraction layer of
`bracket-lib`, covering the two excerpted files:

* `src/hal/amethyst_be/mod.rs` — the Amethyst (host ECS engine) backend:
  session construction, the per-frame bridge `update`, the tile lookups used
  by the host engine's tile renderer, and the one-console bridging limit in
  `initialize_console_objects`.
* `bracket-terminal/src/hal/native/init.rs` — the native (glutin/OpenGL)
  initialization entry point `init_raw`.

Embedding conventions: machine floats (`f32`/`f64` fields such as `fps`,
`frame_time_ms`, `key_delay`, timer deltas) are embedded as rationals; every
value the claims touch (`0.0`, `50.0`, millisecond counts) is exactly
representable. `u32` arithmetic is `Nat`, with an explicit `% 2^32` where a
subtraction can wrap. Rust panics (failed `assert!`, out-of-bounds `Vec`
indexing) are embedded as `Except.error` (or `Option.none` for the tile
lookups, which are otherwise total). Fallible platform calls (window
creation, shader compilation, framebuffer creation) have their outcomes
supplied by an environment record, so that the control flow of the source
can be followed on every path.
-/

namespace BracketLib

/-- RGB colour triple (`bracket_color::RGB`; three `f32` channels). -/
structure RGB where
  r : ℚ
  g : ℚ
  b : ℚ
  deriving DecidableEq

/-- A console cell (`crate::Tile`): glyph code, foreground and background colour. -/
structure Tile where
  glyph : Nat
  fg : RGB
  bg : RGB
  deriving DecidableEq

/-- A console, tagged by storage variant. `dense` is `crate::SimpleConsole`
(full `width*height` grid, row-major `Vec<Tile>`, row origin at top);
`sparse` is `crate::sparse_console::SparseConsole`. The sparse cell payload
is not needed by any claim here: the Amethyst bridge's `downcast_ref`
succeeds only for the dense variant and ignores the others entirely. -/
inductive ConsoleKind where
  | dense (size : Nat × Nat) (tiles : List Tile)
  | sparse (size : Nat × Nat)
  deriving DecidableEq

/-- `Console::get_char_size` — the `(width, height)` of the grid. -/
def ConsoleKind.get_char_size : ConsoleKind → Nat × Nat
  | dense size _ => size
  | sparse size => size

/-- Whether the console is the dense (`SimpleConsole`) variant, i.e. whether
the bridge's `downcast_ref::<SimpleConsole>` would succeed on it. -/
def ConsoleKind.isDense : ConsoleKind → Bool
  | dense _ _ => true
  | sparse _ => false

/-- An entry of the session's console list (`DisplayConsole`): the console
paired with the index of its font. -/
structure DisplayConsole where
  console : ConsoleKind
  font_index : Nat
  deriving DecidableEq

/-- `font::Font` on the Amethyst backend: tile size, source filename, and
the lazily-populated sprite-sheet handle (`ss`), `none` until the font is
loaded by `initialize_fonts`. The handle itself is opaque (a `Nat`). -/
structure Font where
  tile_size : Nat × Nat
  filename : String
  ss : Option Nat
  deriving DecidableEq

namespace Amethyst

/-- The `Rltk` session aggregate as constructed by the Amethyst backend's
`init_raw`. The `backend` field's only data is the window title. Shaders
are empty structs on this backend, embedded as `Unit`. -/
structure Rltk where
  window_title : String
  width_pixels : Nat
  height_pixels : Nat
  fonts : List Font
  consoles : List DisplayConsole
  shaders : List Unit
  fps : ℚ
  frame_time_ms : ℚ
  active_console : Nat
  key : Option Nat
  mouse_pos : Int × Int
  left_click : Bool
  shift : Bool
  control : Bool
  alt : Bool
  web_button : Option String
  quitting : Bool
  post_scanlines : Bool
  post_screenburn : Bool

/-- `amethyst_be::init_raw` — builds the session in its fixed initial state. -/
def init_raw (width_pixels height_pixels : Nat) (window_title : String) : Rltk :=
  { window_title := window_title
    width_pixels := width_pixels
    height_pixels := height_pixels
    fonts := []
    consoles := []
    shaders := []
    fps := 0
    frame_time_ms := 0
    active_console := 0
    key := none
    mouse_pos := (0, 0)
    left_click := false
    shift := false
    control := false
    alt := false
    web_button := none
    quitting := false
    post_scanlines := false
    post_screenburn := false }

/-- The resource the bridge publishes into the host engine's world
(`SimpleConsoleResource`): one console's grid dimensions and a copy of its
cells. -/
structure SimpleConsoleResource where
  size : Nat × Nat
  tiles : List Tile
  deriving DecidableEq

/-- `amethyst::renderer::palette::Srgba` as used here: four channels. -/
structure Srgba where
  r : ℚ
  g : ℚ
  b : ℚ
  a : ℚ
  deriving DecidableEq

namespace SimpleConsoleTile

/-- `SimpleConsoleTile::sprite`: reads the glyph for render point `pt`
from the published `SimpleConsoleResource`. The source indexes
`tiles.tiles[idx]` (a panic when out of range, embedded as `none`); in
range it returns `Some(glyph)` exactly as the source does. -/
def sprite (world : SimpleConsoleResource) (pt : Nat × Nat) : Option Nat :=
  let y := (world.size.2 - 1) - pt.2
  let idx := (y * world.size.1) + pt.1
  (world.tiles[idx]?).map Tile.glyph

/-- `SimpleConsoleTile::tint`: reads the foreground colour for render point
`pt`, alpha 1. Out-of-range indexing (a source panic) is embedded as
`none`. -/
def tint (world : SimpleConsoleResource) (pt : Nat × Nat) : Option Srgba :=
  let y := (world.size.2 - 1) - pt.2
  let idx := (y * world.size.1) + pt.1
  (world.tiles[idx]?).map (fun t => { r := t.fg.r, g := t.fg.g, b := t.fg.b, a := 1 })

end SimpleConsoleTile

namespace SimpleConsoleBackgroundTile

/-- `SimpleConsoleBackgroundTile::sprite`: always glyph 254 (a solid tile). -/
def sprite (_world : SimpleConsoleResource) (_pt : Nat × Nat) : Option Nat :=
  some 254

/-- `SimpleConsoleBackgroundTile::tint`: the background colour of the cell,
with the same bottom-left-origin index flip as the foreground tile. -/
def tint (world : SimpleConsoleResource) (pt : Nat × Nat) : Option Srgba :=
  let y := (world.size.2 - 1) - pt.2
  let idx := (y * world.size.1) + pt.1
  (world.tiles[idx]?).map (fun t => { r := t.bg.r, g := t.bg.g, b := t.bg.b, a := 1 })

end SimpleConsoleBackgroundTile

/-- The Amethyst `SimpleState` wrapper `RltkGemBridge`: the session plus the
accumulated input-poll delay. -/
structure RltkGemBridge where
  rltk : Rltk
  key_delay : ℚ

/-- The slice of `amethyst`'s `InputHandler` state that `update` can query:
the enumeration of currently-down keys (opaque key codes), the mouse
position (already cast to integer pixels), and button/modifier state.
Modifier keys held down are also key codes in `keys_that_are_down`;
`shift_down`/`control_down`/`alt_down` record whether the corresponding
modifier is held at poll time (the handler exposes this through its key
queries — the bridge under test may or may not consult it). -/
structure InputState where
  keys_that_are_down : List Nat
  mouse_position : Option (Int × Int)
  left_mouse_down : Bool
  shift_down : Bool
  control_down : Bool
  alt_down : Bool

/-- Per-frame environment of `RltkGemBridge::update`: the two frame-timer
readings (`delta_time().as_millis()` and `delta_seconds()`), the input
handler state, and the application tick callback (`self.state.tick`). -/
structure UpdateEnv where
  delta_millis : ℚ
  delta_seconds : ℚ
  input : InputState
  tick : Rltk → Rltk

/-- `amethyst::SimpleTrans` outcomes produced by `update`. -/
inductive Trans where
  | Quit
  | None
  deriving DecidableEq

/-- The frame-time / input-capture prefix of `RltkGemBridge::update` (the
code before `self.state.tick`): update `frame_time_ms`/`fps`, accumulate
`key_delay`, clear the per-frame input fields, and — only when the
accumulated delay exceeds 50ms — re-poll key, mouse position and left
click from the input handler. (`fps = 1.0 / delta_seconds`; the `f32`
division is embedded as rational division, whose `delta_seconds = 0` edge
case no claim touches.) -/
def captureInput (env : UpdateEnv) (b : RltkGemBridge) : RltkGemBridge :=
  let frame_time_ms := env.delta_millis
  let fps := 1 / env.delta_seconds
  let key_delay := b.key_delay + frame_time_ms
  let r := { b.rltk with
             frame_time_ms := frame_time_ms
             fps := fps
             left_click := false
             key := none
             shift := false
             control := false
             alt := false }
  if key_delay > 50 then
    let r := { r with
               key := env.input.keys_that_are_down.foldl
                 (fun _ k => some k) (none : Option Nat) }
    let r := match env.input.mouse_position with
             | some pos => { r with mouse_pos := pos }
             | none => r
    let r := if env.input.left_mouse_down then { r with left_click := true } else r
    { rltk := r, key_delay := 0 }
  else
    { rltk := r, key_delay := key_delay }

/-- The body of `update`'s console-publishing loop for one console entry:
read `get_char_size`, and — when the `downcast_ref::<SimpleConsole>`
succeeds, i.e. for the dense variant — build the `SimpleConsoleResource`
that `world.insert` publishes (dimensions plus a copy of the cells);
`none` for the other variants, which the loop skips. -/
def denseSnapshot (cons : DisplayConsole) : Option SimpleConsoleResource :=
  let size := cons.console.get_char_size
  match cons.console with
  | ConsoleKind.dense _ tiles => some { size := size, tiles := tiles }
  | ConsoleKind.sparse _ => none

/-- `RltkGemBridge::update`: capture input, tick the game state, return
`Trans::Quit` if the session set `quitting`, otherwise publish one
`SimpleConsoleResource` per dense console (each `world.insert`, in console
order) and return `Trans::None`. The returned list records the insert
calls of this frame, in order. -/
def update (env : UpdateEnv) (b : RltkGemBridge) :
    RltkGemBridge × Trans × List SimpleConsoleResource :=
  let b1 := captureInput env b
  let r2 := env.tick b1.rltk
  if r2.quitting then
    ({ b1 with rltk := r2 }, Trans.Quit, [])
  else
    let pubs := r2.consoles.filterMap denseSnapshot
    ({ b1 with rltk := r2 }, Trans.None, pubs)

/-- The loop body of `RltkGemBridge::initialize_console_objects`, with the
running `count` explicit. For each dense (`SimpleConsole`) entry whose font
has a loaded sprite sheet, the source asserts `count == 0` (the bridging
limit) and then increments `count`; the camera/tile-map entity creation it
performs on success is a host-engine side effect not needed by the claims.
Rust's panicking `Vec` index on `fonts[cons.font_index]` is embedded as an
error. -/
def console_objects_loop (fonts : List Font) : Nat → List DisplayConsole → Except String Nat
  | count, [] => Except.ok count
  | count, cons :: rest =>
    match cons.console with
    | ConsoleKind.dense _ _ =>
      match fonts[cons.font_index]? with
      | none => Except.error "font index out of bounds"
      | some font =>
        match font.ss with
        | some _ =>
          if count = 0 then console_objects_loop fonts (count + 1) rest
          else Except.error "Amethyst back-end only supports one simple console."
        | none => console_objects_loop fonts count rest
    | ConsoleKind.sparse _ => console_objects_loop fonts count rest

/-- `RltkGemBridge::initialize_console_objects` over the session's font and
console lists: returns the number of consoles bridged, or the failed
assertion / indexing panic as an error. -/
def initialize_console_objects (fonts : List Font) (consoles : List DisplayConsole) :
    Except String Nat :=
  console_objects_loop fonts 0 consoles

/-- A console-list entry the bridge would actually bridge: dense variant and
a font (at a valid index) whose sprite sheet is loaded. -/
def isBridgeable (fonts : List Font) (cons : DisplayConsole) : Bool :=
  cons.console.isDense && ((fonts[cons.font_index]?).bind Font.ss).isSome

end Amethyst

namespace Native

/-- `InitHints` (declared outside the excerpted file; fields are the ones
read by `init_raw` and enumerated in the spec §6). `gl_version` and
`gl_profile` are opaque selectors passed through to the context builder,
`icon` is raw RGBA pixel data with its dimensions, `frame_sleep_time` the
frames-per-second target. -/
structure InitHints where
  allow_resize : Bool
  vsync : Bool
  fullscreen : Bool
  centered : Bool
  srgb : Bool
  icon : Option (List Nat × Nat × Nat)
  frame_sleep_time : Option ℚ
  resize_scaling : Bool
  gl_version : Nat
  gl_profile : Nat

/-- A display monitor as `init_raw` sees it: its physical size in `u32`
pixels (`monitor.size()`). -/
structure Monitor where
  width : Nat
  height : Nat
  deriving DecidableEq

/-- The fixed internal shader source table (`shader_strings`): one tag per
vertex/fragment source pair pushed by `init_raw`, in the order the source
pairs are declared. -/
inductive ShaderKind where
  | console_with_bg
  | console_no_bg
  | backing
  | scanlines
  | fancy_console
  | sprite_console
  deriving DecidableEq

/-- A compiled shader program, identified by the source pair it was
compiled from (the program handle itself is opaque). -/
structure Shader where
  sources : ShaderKind
  deriving DecidableEq

/-- The platform facts `init_raw` consults, and the outcome of each
fallible platform/GPU call it makes: window construction
(`build_windowed`), the monitor enumeration (`available_monitors`), the
window's current monitor and outer size, the per-shader compilation
outcome, and backing-framebuffer construction (`build_fbo`). -/
structure NativeEnv where
  build_window_ok : Bool
  monitors : List Monitor
  current_monitor : Option Monitor
  window_outer_size : Nat × Nat
  scale_factor : ℚ
  compile_ok : ShaderKind → Bool
  fbo_ok : Bool

/-- Observable window-system side effects of a run of `init_raw`, recorded
on every path (success or error): how many OS windows were built, whether
borderless fullscreen was set on the window, and each outer-position
assignment in order. -/
structure InitTrace where
  windows_created : Nat
  fullscreen_set : Bool
  positions_set : List (Nat × Nat)
  deriving DecidableEq

/-- The `BTerm` session as constructed by the native `init_raw`. -/
structure BTerm where
  width_pixels : Nat
  height_pixels : Nat
  original_width_pixels : Nat
  original_height_pixels : Nat
  fps : ℚ
  frame_time_ms : ℚ
  active_console : Nat
  key : Option Nat
  mouse_pos : Int × Int
  left_click : Bool
  shift : Bool
  control : Bool
  alt : Bool
  web_button : Option String
  quitting : Bool
  post_scanlines : Bool
  post_screenburn : Bool
  screen_burn_color : RGB
  deriving DecidableEq

/-- The state a successful `init_raw` leaves behind: the shader registry
stored into `BACKEND_INTERNAL.shaders` (its single assignment), the
`resize_scaling` flag stored into `BACKEND`, and the returned `BTerm`.
The remaining backend fields (`gl`, `quad_vao`, the context wrapper, the
backing buffer, `frame_sleep_time`) are opaque GPU/OS handles and are not
embedded. -/
structure InitOk where
  shaders : List Shader
  resize_scaling : Bool
  bterm : BTerm
  deriving DecidableEq

/-- Modelled from the spec: `Shader::new` (its body is outside the
excerpted files) compiles one shader program from a paired
vertex/fragment source string; per the spec, compilation failure for any
single shader is a fatal initialization error, so it is embedded as an
`Except` whose outcome the environment supplies per source pair. -/
def Shader.new (env : NativeEnv) (sources : ShaderKind) : Except String Shader :=
  if env.compile_ok sources then Except.ok { sources := sources }
  else Except.error "shader compilation failed"

/-- The six sequential `shaders.push(Shader::new(..))` calls of `init_raw`,
in source order; the first failure aborts, leaving no registry. -/
def load_shaders (env : NativeEnv) : Except String (List Shader) :=
  match Shader.new env ShaderKind.console_with_bg with
  | Except.error e => Except.error e
  | Except.ok s0 =>
  match Shader.new env ShaderKind.console_no_bg with
  | Except.error e => Except.error e
  | Except.ok s1 =>
  match Shader.new env ShaderKind.backing with
  | Except.error e => Except.error e
  | Except.ok s2 =>
  match Shader.new env ShaderKind.scanlines with
  | Except.error e => Except.error e
  | Except.ok s3 =>
  match Shader.new env ShaderKind.fancy_console with
  | Except.error e => Except.error e
  | Except.ok s4 =>
  match Shader.new env ShaderKind.sprite_console with
  | Except.error e => Except.error e
  | Except.ok s5 =>
  Except.ok [s0, s1, s2, s3, s4, s5]

/-- `u32` subtraction with two's-complement wraparound (release-mode Rust
semantics for `monitor_size - window_outer_size`). -/
def sub32 (a b : Nat) : Nat := (a + 2 ^ 32 - b) % 2 ^ 32

/-- The fullscreen/centered step of `init_raw`, run right after the window
is built (so every trace it returns has `windows_created = 1`): on the
fullscreen hint, request borderless fullscreen on the first available
monitor, erroring when there is none; otherwise on the centered hint,
best-effort centre the window on its current monitor (`u32` wrapping
arithmetic, silently skipped without monitor metadata); otherwise leave
the window as built. -/
def window_setup (env : NativeEnv) (platform_hints : InitHints) :
    Except String InitTrace :=
  if platform_hints.fullscreen then
    match env.monitors.head? with
    | some _ =>
      Except.ok { windows_created := 1, fullscreen_set := true, positions_set := [] }
    | none => Except.error "No available monitor found"
  else if platform_hints.centered then
    match env.current_monitor with
    | some monitor =>
      Except.ok
        { windows_created := 1
          fullscreen_set := false
          positions_set :=
            [(sub32 monitor.width env.window_outer_size.1 / 2,
              sub32 monitor.height env.window_outer_size.2 / 2)] }
    | none =>
      Except.ok { windows_created := 1, fullscreen_set := false, positions_set := [] }
  else
    Except.ok { windows_created := 1, fullscreen_set := false, positions_set := [] }

/-- The native `init_raw`, step for step: build the window (the `?` on
`build_windowed`), then the fullscreen/centered step (`window_setup`); set
the window icon (a silent best-effort step with no effect embedded here);
compile the six shaders; build the backing framebuffer (the second `?`);
store the backend state and return the `BTerm`. The trace is returned on
every path. -/
def init_raw (env : NativeEnv) (width_pixels height_pixels : Nat)
    (window_title : String) (platform_hints : InitHints) :
    InitTrace × Except String InitOk :=
  if env.build_window_ok = false then
    ({ windows_created := 0, fullscreen_set := false, positions_set := [] },
     Except.error "window creation failed")
  else
    match window_setup env platform_hints with
    | Except.error e =>
      ({ windows_created := 1, fullscreen_set := false, positions_set := [] },
       Except.error e)
    | Except.ok tr1 =>
      match load_shaders env with
      | Except.error e => (tr1, Except.error e)
      | Except.ok shaders =>
        if env.fbo_ok = false then
          (tr1, Except.error "framebuffer creation failed")
        else
          (tr1,
           Except.ok
             { shaders := shaders
               resize_scaling := platform_hints.resize_scaling
               bterm :=
                 { width_pixels := width_pixels
                   height_pixels := height_pixels
                   original_width_pixels := width_pixels
                   original_height_pixels := height_pixels
                   fps := 0
                   frame_time_ms := 0
                   active_console := 0
                   key := none
                   mouse_pos := (0, 0)
                   left_click := false
                   shift := false
                   control := false
                   alt := false
                   web_button := none
                   quitting := false
                   post_scanlines := false
                   post_screenburn := false
                   screen_burn_color := { r := 0, g := 1, b := 1 } } })

/-- The stable shader registry order the spec names. -/
def shaderTableOrder : List ShaderKind :=
  [ShaderKind.console_with_bg, ShaderKind.console_no_bg, ShaderKind.backing,
   ShaderKind.scanlines, ShaderKind.fancy_console, ShaderKind.sprite_console]

end Native

/-- Whether an `Except` result is a success. -/
def exceptIsOk {ε α : Type} : Except ε α → Bool
  | Except.ok _ => true
  | Except.error _ => false

/-! Concrete sample data, used by the witness and counterexample theorems. -/

/-- A black colour sample. -/
def sampleRGB : RGB := { r := 0, g := 0, b := 0 }

/-- A sample cell with a given glyph. -/
def sampleTile (g : Nat) : Tile := { glyph := g, fg := sampleRGB, bg := sampleRGB }

/-- A font whose sprite sheet has been loaded. -/
def sampleFontLoaded : Font :=
  { tile_size := (8, 8), filename := "terminal8x8.png", ss := some 0 }

namespace Amethyst

/-- A published 2x2 console snapshot with four distinct glyphs in row-major
order (row origin at top). -/
def sampleWorld : SimpleConsoleResource :=
  { size := (2, 2), tiles := [sampleTile 10, sampleTile 11, sampleTile 12, sampleTile 13] }

/-- A freshly initialized bridge around `init_raw`'s session, poll delay 0. -/
def sampleBridge : RltkGemBridge :=
  { rltk := init_raw 640 480 "sample", key_delay := 0 }

/-- An input-handler state with two keys down, the shift modifier held, the
left mouse button down, and a known pointer position. -/
def sampleInput : InputState :=
  { keys_that_are_down := [3, 5]
    mouse_position := some (4, 7)
    left_mouse_down := true
    shift_down := true
    control_down := false
    alt_down := false }

/-- A frame environment whose 100ms delta exceeds the 50ms poll threshold,
with an identity tick callback. -/
def sampleEnv : UpdateEnv :=
  { delta_millis := 100, delta_seconds := 1 / 10, input := sampleInput, tick := fun r => r }

/-- As `sampleEnv`, but the tick callback sets `quitting`. -/
def sampleEnvQuit : UpdateEnv :=
  { sampleEnv with tick := fun r => { r with quitting := true } }

/-- As `sampleEnv`, but the tick callback installs one dense 2x2 console. -/
def sampleEnvConsole : UpdateEnv :=
  { sampleEnv with tick := fun r =>
      { r with consoles :=
          [{ console := ConsoleKind.dense (2, 2) sampleWorld.tiles, font_index := 0 }] } }

end Amethyst

namespace Native

/-- Default hints: windowed, not centered. -/
def sampleHints : InitHints :=
  { allow_resize := true
    vsync := true
    fullscreen := false
    centered := false
    srgb := true
    icon := none
    frame_sleep_time := none
    resize_scaling := false
    gl_version := 0
    gl_profile := 0 }

/-- Hints requesting fullscreen. -/
def sampleHintsFullscreen : InitHints := { sampleHints with fullscreen := true }

/-- Hints requesting a centered window. -/
def sampleHintsCentered : InitHints := { sampleHints with centered := true }

/-- A healthy platform: one 1920x1080 monitor, every fallible call succeeds. -/
def sampleEnvOk : NativeEnv :=
  { build_window_ok := true
    monitors := [{ width := 1920, height := 1080 }]
    current_monitor := some { width := 1920, height := 1080 }
    window_outer_size := (640, 480)
    scale_factor := 1
    compile_ok := fun _ => true
    fbo_ok := true }

/-- A platform with zero enumerable monitors (and no current monitor). -/
def sampleEnvNoMonitor : NativeEnv :=
  { sampleEnvOk with monitors := [], current_monitor := none }

/-- A platform on which the backing-shader compilation fails. -/
def sampleEnvBadShader : NativeEnv :=
  { sampleEnvOk with compile_ok := fun k =>
      match k with
      | ShaderKind.backing => false
      | _ => true }

/-- The `BTerm` a successful 640x480 init returns. -/
def sampleBTerm : BTerm :=
  { width_pixels := 640
    height_pixels := 480
    original_width_pixels := 640
    original_height_pixels := 480
    fps := 0
    frame_time_ms := 0
    active_console := 0
    key := none
    mouse_pos := (0, 0)
    left_click := false
    shift := false
    control := false
    alt := false
    web_button := none
    quitting := false
    post_scanlines := false
    post_screenburn := false
    screen_burn_color := { r := 0, g := 1, b := 1 } }

/-- The full state a successful 640x480 init on `sampleEnvOk` leaves. -/
def sampleInitOk : InitOk :=
  { shaders :=
      [{ sources := ShaderKind.console_with_bg }, { sources := ShaderKind.console_no_bg },
       { sources := ShaderKind.backing }, { sources := ShaderKind.scanlines },
       { sources := ShaderKind.fancy_console }, { sources := ShaderKind.sprite_console }]
    resize_scaling := false
    bterm := sampleBTerm }

end Native

end BracketLib

/-! ## Theorems -/

namespace BracketLib

/-- Folding "last event wins" over a non-empty key list yields its last key. -/
theorem foldl_some_eq_getLast? {α : Type} (l : List α) (init : Option α) (h : l ≠ []) :
    l.foldl (fun _ k => some k) init = l.getLast? := by
  induction l generalizing init with
  | nil => exact absurd rfl h
  | cons a t ih =>
    cases t with
    | nil => simp
    | cons b t2 =>
      rw [List.foldl_cons, ih (some a) (by simp), List.getLast?_cons_cons]

/-- One snapshot is published per dense console: the publish list is as long
as the count of dense consoles. -/
theorem length_denseSnapshot (l : List BracketLib.DisplayConsole) :
    (l.filterMap Amethyst.denseSnapshot).length
      = l.countP (fun c => c.console.isDense) := by
  induction l with
  | nil => rfl
  | cons c t ih =>
    rw [List.filterMap_cons, List.countP_cons]
    cases hc : c.console with
    | dense sz ts =>
      simp [Amethyst.denseSnapshot, hc, ConsoleKind.isDense, ih]
    | sparse sz =>
      simp [Amethyst.denseSnapshot, hc, ConsoleKind.isDense, ih]

/-- C3. For every Dense console bridged to the host engine and every render
point `(x, y)` with `x < width` and `y < height`, the glyph and foreground
colour rendered at `(x, y)` are read from the cell at index
`(height - 1 - y) * width + x` of the console's row-major cell sequence:
render space is bottom-left-origin while storage is top-origin row-major. -/
theorem claim_C3 (world : Amethyst.SimpleConsoleResource) (x y : Nat)
    (hx : x < world.size.1) (hy : y < world.size.2)
    (hlen : world.tiles.length = world.size.1 * world.size.2) :
    ∃ cell : Tile,
      world.tiles[(world.size.2 - 1 - y) * world.size.1 + x]? = some cell ∧
      Amethyst.SimpleConsoleTile.sprite world (x, y) = some cell.glyph ∧
      Amethyst.SimpleConsoleTile.tint world (x, y) =
        some { r := cell.fg.r, g := cell.fg.g, b := cell.fg.b, a := 1 } := by
  have hpos : 0 < world.size.2 := Nat.lt_of_le_of_lt (Nat.zero_le y) hy
  have h3 : (world.size.2 - 1) * world.size.1 + world.size.1
      = world.size.2 * world.size.1 := by
    obtain ⟨n, hn⟩ := Nat.exists_eq_succ_of_ne_zero (Nat.pos_iff_ne_zero.mp hpos)
    rw [hn]
    simp [Nat.succ_mul]
  have hidx : (world.size.2 - 1 - y) * world.size.1 + x < world.tiles.length := by
    rw [hlen, Nat.mul_comm world.size.1 world.size.2]
    calc (world.size.2 - 1 - y) * world.size.1 + x
        ≤ (world.size.2 - 1) * world.size.1 + x :=
          Nat.add_le_add_right (Nat.mul_le_mul_right _ (Nat.sub_le _ _)) x
      _ < (world.size.2 - 1) * world.size.1 + world.size.1 := Nat.add_lt_add_left hx _
      _ = world.size.2 * world.size.1 := h3
  have hsome := List.getElem?_eq_getElem hidx
  refine ⟨_, hsome, ?_, ?_⟩
  · simp [Amethyst.SimpleConsoleTile.sprite, hsome]
  · simp [Amethyst.SimpleConsoleTile.tint, hsome]

/-- Witness for C3 on a concrete 2x2 console at render point `(0, 0)`: the
cell read is the one at storage index `(2 - 1 - 0) * 2 + 0 = 2`. -/
theorem claim_C3_witness :
    ∃ cell : Tile,
      Amethyst.sampleWorld.tiles[(Amethyst.sampleWorld.size.2 - 1 - 0) *
        Amethyst.sampleWorld.size.1 + 0]? = some cell ∧
      Amethyst.SimpleConsoleTile.sprite Amethyst.sampleWorld (0, 0) = some cell.glyph ∧
      Amethyst.SimpleConsoleTile.tint Amethyst.sampleWorld (0, 0) =
        some { r := cell.fg.r, g := cell.fg.g, b := cell.fg.b, a := 1 } :=
  claim_C3 Amethyst.sampleWorld 0 0 (by decide) (by decide) (by decide)

/-- C4. Whenever the input-capture step actually polls (accumulated delay
above the 50ms threshold), the snapshot's key field is the last key of the
enumeration of currently-down keys — `none` when no key is down, the last
one when several are down (last event wins). -/
theorem claim_C4 (env : Amethyst.UpdateEnv) (b : Amethyst.RltkGemBridge)
    (h : b.key_delay + env.delta_millis > 50) :
    (Amethyst.captureInput env b).rltk.key = env.input.keys_that_are_down.getLast? := by
  have hfold : env.input.keys_that_are_down.foldl (fun _ k => some k) (none : Option Nat)
      = env.input.keys_that_are_down.getLast? := by
    cases hk : env.input.keys_that_are_down with
    | nil => rfl
    | cons a t => exact foldl_some_eq_getLast? (a :: t) none (by simp)
  simp only [Amethyst.captureInput]
  rw [if_pos h]
  cases hm : env.input.mouse_position <;>
    cases hl : env.input.left_mouse_down <;>
      simp [hm, hl, hfold]

/-- Witness for C4: with keys 3 and 5 down and the threshold exceeded, the
snapshot's key is the last enumerated key. -/
theorem claim_C4_witness :
    (Amethyst.captureInput Amethyst.sampleEnv Amethyst.sampleBridge).rltk.key =
      Amethyst.sampleEnv.input.keys_that_are_down.getLast? :=
  claim_C4 Amethyst.sampleEnv Amethyst.sampleBridge
    (by simp [Amethyst.sampleEnv, Amethyst.sampleBridge]; norm_num)

/-- C5. If the tick callback sets `quitting`, the frame returns the quit
transition immediately after the tick: the per-frame console-snapshot
publish of that cycle does not happen (the publish list is empty). -/
theorem claim_C5 (env : Amethyst.UpdateEnv) (b : Amethyst.RltkGemBridge)
    (h : (env.tick (Amethyst.captureInput env b).rltk).quitting = true) :
    (Amethyst.update env b).2.1 = Amethyst.Trans.Quit ∧
    (Amethyst.update env b).2.2 = [] := by
  simp [Amethyst.update, h]

/-- Witness for C5: a tick callback that sets `quitting` makes the frame
return `Trans::Quit` with no publishes. -/
theorem claim_C5_witness :
    (Amethyst.update Amethyst.sampleEnvQuit Amethyst.sampleBridge).2.1 =
      Amethyst.Trans.Quit ∧
    (Amethyst.update Amethyst.sampleEnvQuit Amethyst.sampleBridge).2.2 = [] :=
  claim_C5 Amethyst.sampleEnvQuit Amethyst.sampleBridge rfl

/-- C9 (amended). The snapshot's shift/control/alt fields are cleared to
`false` on every frame and never read back from the input handler on this
backend: at tick time they are `false` regardless of actual modifier
state. -/
theorem claim_C9_amended (env : Amethyst.UpdateEnv) (b : Amethyst.RltkGemBridge) :
    (Amethyst.captureInput env b).rltk.shift = false ∧
    (Amethyst.captureInput env b).rltk.control = false ∧
    (Amethyst.captureInput env b).rltk.alt = false := by
  simp only [Amethyst.captureInput]
  by_cases hkd : b.key_delay + env.delta_millis > 50
  · rw [if_pos hkd]
    cases hm : env.input.mouse_position <;>
      cases hl : env.input.left_mouse_down <;>
        simp [hm, hl]
  · rw [if_neg hkd]
    simp

/-- C6. On every non-quitting frame, after the tick callback returns, the
loop publishes to the host engine's resource slot one read-only snapshot
per dense console of the session's console list — the frame returns
`Trans::None`, the publish list holds exactly one entry per dense console,
and each dense console's entry carries exactly its `get_char_size`
dimensions and a copy of its cells. -/
theorem claim_C6 (env : Amethyst.UpdateEnv) (b : Amethyst.RltkGemBridge)
    (h : (env.tick (Amethyst.captureInput env b).rltk).quitting = false) :
    (Amethyst.update env b).2.1 = Amethyst.Trans.None ∧
    (Amethyst.update env b).2.2.length =
      (env.tick (Amethyst.captureInput env b).rltk).consoles.countP
        (fun c => c.console.isDense) ∧
    ∀ c ∈ (env.tick (Amethyst.captureInput env b).rltk).consoles,
      ∀ sz ts, c.console = ConsoleKind.dense sz ts →
        ({ size := c.console.get_char_size, tiles := ts } :
          Amethyst.SimpleConsoleResource) ∈ (Amethyst.update env b).2.2 := by
  refine ⟨?_, ?_, ?_⟩
  · simp [Amethyst.update, h]
  · simp [Amethyst.update, h, length_denseSnapshot]
  · intro c hc sz ts hceq
    simp only [Amethyst.update, h, Bool.false_eq_true, if_false]
    exact List.mem_filterMap.mpr
      ⟨c, hc, by simp [Amethyst.denseSnapshot, hceq]⟩

/-- Witness for C6: a tick that installs one dense 2x2 console makes the
frame publish exactly that console's snapshot and return `Trans::None`. -/
theorem claim_C6_witness :
    (Amethyst.update Amethyst.sampleEnvConsole Amethyst.sampleBridge).2.1 =
      Amethyst.Trans.None ∧
    Amethyst.sampleWorld ∈
      (Amethyst.update Amethyst.sampleEnvConsole Amethyst.sampleBridge).2.2 := by
  have hres := claim_C6 Amethyst.sampleEnvConsole Amethyst.sampleBridge
    (by norm_num [Amethyst.sampleEnvConsole, Amethyst.sampleEnv, Amethyst.sampleInput,
      Amethyst.sampleBridge, Amethyst.init_raw, Amethyst.captureInput])
  refine ⟨hres.1, ?_⟩
  exact hres.2.2
    { console := ConsoleKind.dense (2, 2) Amethyst.sampleWorld.tiles, font_index := 0 }
    (by simp [Amethyst.sampleEnvConsole]) (2, 2) Amethyst.sampleWorld.tiles rfl

/-- The bridging loop of `initialize_console_objects` fails with the
one-console assertion whenever the already-bridged count plus the number of
remaining bridgeable consoles reaches two (font indices of dense consoles
being in range, so the invalid-index panic does not fire first). -/
theorem console_objects_loop_two (fonts : List Font) :
    ∀ (consoles : List BracketLib.DisplayConsole) (count : Nat),
      (∀ c ∈ consoles, c.console.isDense = true → c.font_index < fonts.length) →
      count ≤ 1 →
      2 ≤ count + consoles.countP (Amethyst.isBridgeable fonts) →
      Amethyst.console_objects_loop fonts count consoles =
        Except.error "Amethyst back-end only supports one simple console." := by
  intro consoles
  induction consoles with
  | nil =>
    intro count hv hc h2
    simp only [List.countP_nil] at h2
    omega
  | cons c t ih =>
    intro count hv hc h2
    rw [List.countP_cons] at h2
    have hv2 : ∀ x ∈ t, x.console.isDense = true → x.font_index < fonts.length :=
      fun x hx hd => hv x (List.mem_cons_of_mem _ hx) hd
    cases hcon : c.console with
    | dense sz ts =>
      have hidx : c.font_index < fonts.length :=
        hv c (List.mem_cons_self _ _) (by rw [hcon]; rfl)
      have hfont := List.getElem?_eq_getElem hidx
      cases hss : fonts[c.font_index].ss with
      | some handle =>
        have hp : Amethyst.isBridgeable fonts c = true := by
          simp [Amethyst.isBridgeable, hcon, ConsoleKind.isDense, hfont, hss]
        simp only [hp, if_true] at h2
        simp only [Amethyst.console_objects_loop, hcon, hfont, hss]
        cases count with
        | zero =>
          rw [if_pos rfl]
          exact ih 1 hv2 (by omega) (by omega)
        | succ n =>
          rw [if_neg (by omega)]
      | none =>
        have hp : Amethyst.isBridgeable fonts c = false := by
          simp [Amethyst.isBridgeable, hcon, ConsoleKind.isDense, hfont, hss]
        simp only [hp, if_false, Bool.false_eq_true, Nat.add_zero] at h2
        simp only [Amethyst.console_objects_loop, hcon, hfont, hss]
        exact ih count hv2 hc (by omega)
    | sparse sz =>
      have hp : Amethyst.isBridgeable fonts c = false := by
        simp [Amethyst.isBridgeable, hcon, ConsoleKind.isDense]
      simp only [hp, if_false, Bool.false_eq_true, Nat.add_zero] at h2
      simp only [Amethyst.console_objects_loop, hcon]
      exact ih count hv2 hc (by omega)

/-- C1. If the session's console list holds two or more dense consoles with
a loaded font (all dense entries having in-range font indices), console
object initialization fails loudly with the one-console assertion —
the second bridge attempt is not silently ignored. -/
theorem claim_C1 (fonts : List Font) (consoles : List BracketLib.DisplayConsole)
    (hvalid : ∀ c ∈ consoles, c.console.isDense = true → c.font_index < fonts.length)
    (hcount : 2 ≤ consoles.countP (Amethyst.isBridgeable fonts)) :
    Amethyst.initialize_console_objects fonts consoles =
      Except.error "Amethyst back-end only supports one simple console." :=
  console_objects_loop_two fonts consoles 0 hvalid (by omega) (by omega)

/-- Witness for C1: two dense consoles sharing one loaded font trigger the
assertion failure. -/
theorem claim_C1_witness :
    Amethyst.initialize_console_objects [sampleFontLoaded]
      [{ console := ConsoleKind.dense (2, 2) [], font_index := 0 },
       { console := ConsoleKind.dense (2, 2) [], font_index := 0 }] =
      Except.error "Amethyst back-end only supports one simple console." :=
  claim_C1 [sampleFontLoaded]
    [{ console := ConsoleKind.dense (2, 2) [], font_index := 0 },
     { console := ConsoleKind.dense (2, 2) [], font_index := 0 }]
    (by decide) (by decide)

/-- A successful `Shader::new` means that source pair compiled, and the
shader records exactly that source pair. -/
theorem shader_new_ok {env : Native.NativeEnv} {k : Native.ShaderKind}
    {s : Native.Shader} (h : Native.Shader.new env k = Except.ok s) :
    env.compile_ok k = true ∧ s = { sources := k } := by
  unfold Native.Shader.new at h
  by_cases hc : env.compile_ok k
  · rw [if_pos hc] at h
    exact ⟨hc, (Except.ok.injEq _ _).mp h.symm⟩
  · rw [if_neg hc] at h
    exact Except.noConfusion h

/-- A successful shader-loading pass yields exactly the six shaders of the
fixed table, in table order, and implies every source pair compiled. -/
theorem load_shaders_ok (env : Native.NativeEnv) (l : List Native.Shader)
    (hl : Native.load_shaders env = Except.ok l) :
    l = [{ sources := Native.ShaderKind.console_with_bg },
         { sources := Native.ShaderKind.console_no_bg },
         { sources := Native.ShaderKind.backing },
         { sources := Native.ShaderKind.scanlines },
         { sources := Native.ShaderKind.fancy_console },
         { sources := Native.ShaderKind.sprite_console }] ∧
    ∀ k, env.compile_ok k = true := by
  unfold Native.load_shaders at hl
  split at hl
  · exact Except.noConfusion hl
  · rename_i s0 heq0
    split at hl
    · exact Except.noConfusion hl
    · rename_i s1 heq1
      split at hl
      · exact Except.noConfusion hl
      · rename_i s2 heq2
        split at hl
        · exact Except.noConfusion hl
        · rename_i s3 heq3
          split at hl
          · exact Except.noConfusion hl
          · rename_i s4 heq4
            split at hl
            · exact Except.noConfusion hl
            · rename_i s5 heq5
              obtain ⟨c0, e0⟩ := shader_new_ok heq0
              obtain ⟨c1, e1⟩ := shader_new_ok heq1
              obtain ⟨c2, e2⟩ := shader_new_ok heq2
              obtain ⟨c3, e3⟩ := shader_new_ok heq3
              obtain ⟨c4, e4⟩ := shader_new_ok heq4
              obtain ⟨c5, e5⟩ := shader_new_ok heq5
              have hll : [s0, s1, s2, s3, s4, s5] = l :=
                (Except.ok.injEq _ _).mp hl
              subst e0; subst e1; subst e2; subst e3; subst e4; subst e5
              refine ⟨hll.symm, ?_⟩
              intro k
              cases k <;> assumption

/-- When every source pair compiles, shader loading succeeds with the full
table. -/
theorem load_shaders_all_ok (env : Native.NativeEnv)
    (h : ∀ k, env.compile_ok k = true) :
    Native.load_shaders env =
      Except.ok
        [{ sources := Native.ShaderKind.console_with_bg },
         { sources := Native.ShaderKind.console_no_bg },
         { sources := Native.ShaderKind.backing },
         { sources := Native.ShaderKind.scanlines },
         { sources := Native.ShaderKind.fancy_console },
         { sources := Native.ShaderKind.sprite_console }] := by
  simp [Native.load_shaders, Native.Shader.new, h]

/-- Any successful native init obtained its shader registry from a
successful shader-loading pass. -/
theorem init_raw_ok_shaders (env : Native.NativeEnv) (w h : Nat) (t : String)
    (hints : Native.InitHints) (res : Native.InitOk)
    (hok : (Native.init_raw env w h t hints).2 = Except.ok res) :
    Native.load_shaders env = Except.ok res.shaders := by
  by_cases hbw : env.build_window_ok = false
  · simp only [Native.init_raw, if_pos hbw] at hok
    exact Except.noConfusion hok
  · simp only [Native.init_raw, if_neg hbw] at hok
    cases hws : Native.window_setup env hints with
    | error e =>
      simp only [hws] at hok
      exact Except.noConfusion hok
    | ok tr1 =>
      simp only [hws] at hok
      cases hls : Native.load_shaders env with
      | error e =>
        simp only [hls] at hok
        exact Except.noConfusion hok
      | ok shaders =>
        simp only [hls] at hok
        by_cases hfb : env.fbo_ok = false
        · simp only [if_pos hfb] at hok
          exact Except.noConfusion hok
        · simp only [if_neg hfb] at hok
          have hres := (Except.ok.injEq _ _).mp hok
          rw [← hres]

/-- Any successful native init returns the `BTerm` literal of the source:
the fixed initial session state. -/
theorem init_raw_ok_bterm (env : Native.NativeEnv) (w h : Nat) (t : String)
    (hints : Native.InitHints) (res : Native.InitOk)
    (hok : (Native.init_raw env w h t hints).2 = Except.ok res) :
    res.bterm =
      { width_pixels := w
        height_pixels := h
        original_width_pixels := w
        original_height_pixels := h
        fps := 0
        frame_time_ms := 0
        active_console := 0
        key := none
        mouse_pos := (0, 0)
        left_click := false
        shift := false
        control := false
        alt := false
        web_button := none
        quitting := false
        post_scanlines := false
        post_screenburn := false
        screen_burn_color := { r := 0, g := 1, b := 1 } } := by
  by_cases hbw : env.build_window_ok = false
  · simp only [Native.init_raw, if_pos hbw] at hok
    exact Except.noConfusion hok
  · simp only [Native.init_raw, if_neg hbw] at hok
    cases hws : Native.window_setup env hints with
    | error e =>
      simp only [hws] at hok
      exact Except.noConfusion hok
    | ok tr1 =>
      simp only [hws] at hok
      cases hls : Native.load_shaders env with
      | error e =>
        simp only [hls] at hok
        exact Except.noConfusion hok
      | ok shaders =>
        simp only [hls] at hok
        by_cases hfb : env.fbo_ok = false
        · simp only [if_pos hfb] at hok
          exact Except.noConfusion hok
        · simp only [if_neg hfb] at hok
          have hres := (Except.ok.injEq _ _).mp hok
          rw [← hres]

/-- `u32` wrapping subtraction agrees with plain subtraction when it cannot
underflow (`b ≤ a`) and `a` is a `u32` value. -/
theorem sub32_eq (a b : Nat) (hba : b ≤ a) (ha : a < 2 ^ 32) :
    Native.sub32 a b = a - b := by
  unfold Native.sub32
  rw [Nat.sub_add_comm hba, Nat.add_mod_right,
    Nat.mod_eq_of_lt (Nat.lt_of_le_of_lt (Nat.sub_le a b) ha)]

/-- C2 (amended). With the fullscreen hint set and zero enumerable
monitors, native initialization fails with the no-monitor error and
returns nothing — but a window has already been created by the preceding
`build_windowed` call (it is dropped on the error return), and fullscreen
is never set on it. -/
theorem claim_C2_amended (env : Native.NativeEnv) (w h : Nat) (t : String)
    (hints : Native.InitHints)
    (hb : env.build_window_ok = true) (hf : hints.fullscreen = true)
    (hm : env.monitors = []) :
    Native.init_raw env w h t hints =
      ({ windows_created := 1, fullscreen_set := false, positions_set := [] },
       Except.error "No available monitor found") := by
  simp [Native.init_raw, Native.window_setup, hb, hf, hm]

/-- Witness for C2's amended claim at a concrete monitor-less platform. -/
theorem claim_C2_witness :
    Native.init_raw Native.sampleEnvNoMonitor 640 480 "bracket"
        Native.sampleHintsFullscreen =
      ({ windows_created := 1, fullscreen_set := false, positions_set := [] },
       Except.error "No available monitor found") :=
  claim_C2_amended Native.sampleEnvNoMonitor 640 480 "bracket"
    Native.sampleHintsFullscreen rfl rfl rfl

/-- Counterexample for C2 as stated: on a fullscreen request with zero
enumerable monitors the no-monitor error is returned, but it is not true
that no window is created — one window was built before the monitor check
(and is discarded with the error). -/
theorem claim_C2_counterexample :
    (Native.init_raw Native.sampleEnvNoMonitor 640 480 "bracket"
        Native.sampleHintsFullscreen).2 = Except.error "No available monitor found" ∧
    (Native.init_raw Native.sampleEnvNoMonitor 640 480 "bracket"
        Native.sampleHintsFullscreen).1.windows_created = 1 :=
  ⟨rfl, rfl⟩

/-- C7. Every successful native init stores exactly six shaders compiled
from the fixed source table, in the stable order (console with background,
console no background, backing, scanlines, fancy console, sprite console);
and whenever any single shader source fails to compile, initialization
returns an error — no partial registry. -/
theorem claim_C7 (env env2 : Native.NativeEnv) (w h : Nat) (t : String)
    (hints : Native.InitHints) (res : Native.InitOk)
    (hok : (Native.init_raw env w h t hints).2 = Except.ok res)
    (k : Native.ShaderKind) (hbad : env2.compile_ok k = false) :
    res.shaders.map Native.Shader.sources = Native.shaderTableOrder ∧
    res.shaders.length = 6 ∧
    exceptIsOk (Native.init_raw env2 w h t hints).2 = false := by
  obtain ⟨hfix, _⟩ := load_shaders_ok env res.shaders (init_raw_ok_shaders env w h t hints res hok)
  refine ⟨by rw [hfix]; rfl, by rw [hfix]; rfl, ?_⟩
  cases hres : (Native.init_raw env2 w h t hints).2 with
  | error e => rfl
  | ok res2 =>
    have hall := (load_shaders_ok env2 res2.shaders
      (init_raw_ok_shaders env2 w h t hints res2 hres)).2 k
    rw [hbad] at hall
    exact Bool.noConfusion hall

/-- Witness for C7: a healthy platform yields the six-shader registry in
table order; a platform whose backing shader fails to compile makes init
fail. -/
theorem claim_C7_witness :
    Native.sampleInitOk.shaders.map Native.Shader.sources = Native.shaderTableOrder ∧
    Native.sampleInitOk.shaders.length = 6 ∧
    exceptIsOk (Native.init_raw Native.sampleEnvBadShader 640 480 "bracket"
      Native.sampleHints).2 = false :=
  claim_C7 Native.sampleEnvOk Native.sampleEnvBadShader 640 480 "bracket"
    Native.sampleHints Native.sampleInitOk rfl Native.ShaderKind.backing rfl

/-- C8. With the centered hint set and fullscreen not set: when monitor
metadata is available (and the window fits on the monitor, sizes being
`u32` values), the window position is set exactly once, to
`(monitor_size - window_outer_size) / 2` in each dimension in integer
arithmetic; when no monitor metadata is available the positioning is
silently skipped and initialization still succeeds. -/
theorem claim_C8 (env env2 : Native.NativeEnv) (w h : Nat) (t : String)
    (hints : Native.InitHints)
    (hb : env.build_window_ok = true) (hb2 : env2.build_window_ok = true)
    (hf : hints.fullscreen = false) (hc : hints.centered = true)
    (m : Native.Monitor) (hm : env.current_monitor = some m)
    (h32w : m.width < 2 ^ 32) (h32h : m.height < 2 ^ 32)
    (hww : env.window_outer_size.1 ≤ m.width)
    (hwh : env.window_outer_size.2 ≤ m.height)
    (hm2 : env2.current_monitor = none)
    (hcomp : ∀ k, env2.compile_ok k = true) (hfbo : env2.fbo_ok = true) :
    (Native.init_raw env w h t hints).1.positions_set =
      [((m.width - env.window_outer_size.1) / 2,
        (m.height - env.window_outer_size.2) / 2)] ∧
    (Native.init_raw env2 w h t hints).1.positions_set = [] ∧
    exceptIsOk (Native.init_raw env2 w h t hints).2 = true := by
  have e1 := sub32_eq m.width env.window_outer_size.1 hww h32w
  have e2 := sub32_eq m.height env.window_outer_size.2 hwh h32h
  have hload := load_shaders_all_ok env2 hcomp
  refine ⟨?_, ?_, ?_⟩
  · cases hls : Native.load_shaders env with
    | error e => simp [Native.init_raw, Native.window_setup, hb, hf, hc, hm, hls, e1, e2]
    | ok l =>
      by_cases hfb : env.fbo_ok = false <;>
        simp [Native.init_raw, Native.window_setup, hb, hf, hc, hm, hls, hfb, e1, e2]
  · simp [Native.init_raw, Native.window_setup, hb2, hf, hc, hm2, hload, hfbo]
  · simp [Native.init_raw, Native.window_setup, hb2, hf, hc, hm2, hload, hfbo, exceptIsOk]

/-- Witness for C8 on a 1920x1080 monitor with a 640x480 window (centred
position `(640, 300)`), and on a platform without monitor metadata. -/
theorem claim_C8_witness :
    (Native.init_raw Native.sampleEnvOk 640 480 "bracket"
        Native.sampleHintsCentered).1.positions_set =
      [((1920 - 640) / 2, (1080 - 480) / 2)] ∧
    (Native.init_raw Native.sampleEnvNoMonitor 640 480 "bracket"
        Native.sampleHintsCentered).1.positions_set = [] ∧
    exceptIsOk (Native.init_raw Native.sampleEnvNoMonitor 640 480 "bracket"
        Native.sampleHintsCentered).2 = true :=
  claim_C8 Native.sampleEnvOk Native.sampleEnvNoMonitor 640 480 "bracket"
    Native.sampleHintsCentered rfl rfl rfl rfl
    { width := 1920, height := 1080 } rfl (by norm_num) (by norm_num)
    (by norm_num [Native.sampleEnvOk]) (by norm_num [Native.sampleEnvOk])
    rfl (fun k => rfl) rfl

/-- C10. Every successful call to an initialization entry point returns a
session in the fixed initial state: active console 0, not quitting, no key,
no click, no modifiers, mouse at the origin, zeroed timing, and both
post-processing toggles off — on the native backend (any successful
`init_raw`) and on the Amethyst backend (whose `init_raw` is total). -/
theorem claim_C10 (env : Native.NativeEnv) (w h : Nat) (t : String)
    (hints : Native.InitHints) (res : Native.InitOk)
    (hok : (Native.init_raw env w h t hints).2 = Except.ok res)
    (w2 h2 : Nat) (t2 : String) :
    (res.bterm.active_console = 0 ∧ res.bterm.quitting = false ∧
     res.bterm.key = none ∧ res.bterm.left_click = false ∧
     res.bterm.shift = false ∧ res.bterm.control = false ∧
     res.bterm.alt = false ∧ res.bterm.mouse_pos = (0, 0) ∧
     res.bterm.fps = 0 ∧ res.bterm.frame_time_ms = 0 ∧
     res.bterm.post_scanlines = false ∧ res.bterm.post_screenburn = false) ∧
    ((Amethyst.init_raw w2 h2 t2).active_console = 0 ∧
     (Amethyst.init_raw w2 h2 t2).quitting = false ∧
     (Amethyst.init_raw w2 h2 t2).key = none ∧
     (Amethyst.init_raw w2 h2 t2).left_click = false ∧
     (Amethyst.init_raw w2 h2 t2).shift = false ∧
     (Amethyst.init_raw w2 h2 t2).control = false ∧
     (Amethyst.init_raw w2 h2 t2).alt = false ∧
     (Amethyst.init_raw w2 h2 t2).mouse_pos = (0, 0) ∧
     (Amethyst.init_raw w2 h2 t2).fps = 0 ∧
     (Amethyst.init_raw w2 h2 t2).frame_time_ms = 0 ∧
     (Amethyst.init_raw w2 h2 t2).post_scanlines = false ∧
     (Amethyst.init_raw w2 h2 t2).post_screenburn = false) := by
  have hbterm := init_raw_ok_bterm env w h t hints res hok
  exact ⟨by simp [hbterm], by simp [Amethyst.init_raw]⟩

/-- Witness for C10 on a successful 640x480 native init and a 320x200
Amethyst init. -/
theorem claim_C10_witness :
    (Native.sampleInitOk.bterm.active_console = 0 ∧
     Native.sampleInitOk.bterm.quitting = false ∧
     Native.sampleInitOk.bterm.key = none ∧
     Native.sampleInitOk.bterm.left_click = false ∧
     Native.sampleInitOk.bterm.shift = false ∧
     Native.sampleInitOk.bterm.control = false ∧
     Native.sampleInitOk.bterm.alt = false ∧
     Native.sampleInitOk.bterm.mouse_pos = (0, 0) ∧
     Native.sampleInitOk.bterm.fps = 0 ∧
     Native.sampleInitOk.bterm.frame_time_ms = 0 ∧
     Native.sampleInitOk.bterm.post_scanlines = false ∧
     Native.sampleInitOk.bterm.post_screenburn = false) ∧
    ((Amethyst.init_raw 320 200 "amethyst").active_console = 0 ∧
     (Amethyst.init_raw 320 200 "amethyst").quitting = false ∧
     (Amethyst.init_raw 320 200 "amethyst").key = none ∧
     (Amethyst.init_raw 320 200 "amethyst").left_click = false ∧
     (Amethyst.init_raw 320 200 "amethyst").shift = false ∧
     (Amethyst.init_raw 320 200 "amethyst").control = false ∧
     (Amethyst.init_raw 320 200 "amethyst").alt = false ∧
     (Amethyst.init_raw 320 200 "amethyst").mouse_pos = (0, 0) ∧
     (Amethyst.init_raw 320 200 "amethyst").fps = 0 ∧
     (Amethyst.init_raw 320 200 "amethyst").frame_time_ms = 0 ∧
     (Amethyst.init_raw 320 200 "amethyst").post_scanlines = false ∧
     (Amethyst.init_raw 320 200 "amethyst").post_screenburn = false) :=
  claim_C10 Native.sampleEnvOk 640 480 "bracket" Native.sampleHints
    Native.sampleInitOk rfl 320 200 "amethyst"

/-- Counterexample for C9 as stated: a frame in which the capture step
executes (threshold exceeded) and the shift modifier is held, yet the
snapshot's shift field is `false`. -/
theorem claim_C9_counterexample :
    Amethyst.sampleBridge.key_delay + Amethyst.sampleEnv.delta_millis > 50 ∧
    Amethyst.sampleEnv.input.shift_down = true ∧
    (Amethyst.captureInput Amethyst.sampleEnv Amethyst.sampleBridge).rltk.shift = false := by
  refine ⟨?_, rfl, ?_⟩
  · simp [Amethyst.sampleEnv, Amethyst.sampleBridge]
    norm_num
  · norm_num [Amethyst.captureInput, Amethyst.sampleEnv, Amethyst.sampleBridge,
      Amethyst.sampleInput]

end BracketLib
